import Mathlib

/-!
Verification of `scripts/gen-favicon.py` (deep-time-timeline repository).

The script contains one function, `generate_log_ruler_svg`, which builds an
SVG document as a list of text lines: an opening `<svg>` tag, a comment, a
baseline `<line>` element, a blank line, a comment, then for each tick index
`i` in `range(num_marks)` a comment, a `<line>` element and a blank line,
and finally the closing tag.  Tick `i` sits at horizontal position
`margin + (width - 2*margin) * log(i+1)/log(num_marks)` (with the ratio
forced to 0 when `num_marks == 1`), and its height/thickness tier is chosen
by an if-chain: endpoints are tall and thicker, other even indices medium,
odd indices short.

We embed the function shallowly: the numeric computations are carried out
over the exact reals (the spec treats the floating-point rendering with one
decimal digit as formatting only), and each appended line of text becomes a
constructor of `SvgLine` carrying the numeric and string values that the
Python f-string interpolates.
-/

/-- The parameters of `generate_log_ruler_svg`, with the Python defaults.
`num_marks` is an integer (Python `range` accepts any int, iterating zero
times when it is ≤ 0); the geometric quantities are exact reals. -/
structure GenParams where
  num_marks : ℤ := 8
  width : ℝ := 100
  height : ℝ := 100
  margin : ℝ := 10
  baseline_y : ℝ := 70
  color : String := "#333"
  baseline_thickness : ℝ := 3
  mark_thickness : ℝ := 2
  tall_height : ℝ := 40
  medium_height : ℝ := 30
  short_height : ℝ := 20

/-- One line of the generated SVG text.  Each constructor corresponds to one
kind of string the Python function appends to `svg_lines`:
`openTag` for the `<svg ... viewBox="0 0 w h">` line, `comment` for the two
fixed `<!-- ... -->` lines, `markComment` for the per-mark
`<!-- Mark i: x≈... -->` line, `lineElem` for a
`<line x1 y1 x2 y2 stroke stroke-width/>` element, `blank` for the empty
string, and `closeTag` for `</svg>`. -/
inductive SvgLine where
  | openTag (w h : ℝ)
  | comment (text : String)
  | markComment (i : ℕ) (x : ℝ)
  | lineElem (x1 y1 x2 y2 : ℝ) (stroke : String) (strokeWidth : ℝ)
  | blank
  | closeTag

/-- The per-tick position ratio computed in the loop body:
`0` when `num_marks == 1`, otherwise `log(i+1)/log(num_marks)`
(natural logarithms, as in Python `math.log`). -/
noncomputable def tickRatioAt (num_marks : ℤ) (i : ℕ) : ℝ :=
  if num_marks = 1 then 0 else Real.log (i + 1) / Real.log num_marks

/-- `x_pos = x_start + ruler_width * ratio`, where `x_start = margin`,
`x_end = width - margin` and `ruler_width = x_end - x_start`. -/
noncomputable def xPos (p : GenParams) (i : ℕ) : ℝ :=
  p.margin + ((p.width - p.margin) - p.margin) * tickRatioAt p.num_marks i

/-- The height/thickness selection if-chain in the loop body, returning
`(mark_height, thickness)`: endpoints get `(tall_height, mark_thickness + 0.5)`,
other even indices `(medium_height, mark_thickness)`, odd indices
`(short_height, mark_thickness)`. -/
noncomputable def markStyle (p : GenParams) (i : ℕ) : ℝ × ℝ :=
  if i = 0 ∨ (i : ℤ) = p.num_marks - 1 then (p.tall_height, p.mark_thickness + 0.5)
  else if i % 2 = 0 then (p.medium_height, p.mark_thickness)
  else (p.short_height, p.mark_thickness)

/-- The baseline `<line>` element appended before the loop:
`<line x1=x_start y1=baseline_y x2=x_end y2=baseline_y stroke=color
stroke-width=baseline_thickness/>`. -/
def baselineElem (p : GenParams) : SvgLine :=
  .lineElem p.margin p.baseline_y (p.width - p.margin) p.baseline_y
    p.color p.baseline_thickness

/-- The `<line>` element appended for tick `i`:
`<line x1=x_pos y1=baseline_y x2=x_pos y2=y_top stroke=color
stroke-width=thickness/>` with `y_top = baseline_y - mark_height`. -/
noncomputable def tickElem (p : GenParams) (i : ℕ) : SvgLine :=
  .lineElem (xPos p i) p.baseline_y (xPos p i)
    (p.baseline_y - (markStyle p i).1) p.color (markStyle p i).2

/-- The three lines appended by one iteration of the loop: the
`<!-- Mark i ... -->` comment, the tick `<line>` element, and a blank line. -/
noncomputable def markLines (p : GenParams) (i : ℕ) : List SvgLine :=
  [.markComment i (xPos p i), tickElem p i, .blank]

/-- The full list `svg_lines` built by `generate_log_ruler_svg` (the Python
function returns these lines joined by newlines). -/
noncomputable def generate_log_ruler_svg (p : GenParams) : List SvgLine :=
  [SvgLine.openTag p.width p.height,
   SvgLine.comment "Horizontal baseline",
   baselineElem p,
   SvgLine.blank,
   SvgLine.comment "Log-spaced markings"]
  ++ (List.range p.num_marks.toNat).flatMap (markLines p)
  ++ [SvgLine.closeTag]

/-- True exactly on the lines that are SVG elements (the opening root tag,
`<line>` elements, and the closing root tag); comments and blank lines are
not elements. -/
def isElement : SvgLine → Bool
  | .openTag _ _ => true
  | .lineElem _ _ _ _ _ _ => true
  | .closeTag => true
  | _ => false

/-- True exactly on `<line>` elements. -/
def isLineElem : SvgLine → Bool
  | .lineElem _ _ _ _ _ _ => true
  | _ => false

/-- Claim C2: for mark count = 1 the ratio branch forces the ratio to 0 (no
logarithm of the count is divided by) and the single tick's horizontal
position equals `margin` exactly. -/
theorem single_mark_at_margin (p : GenParams) (i : ℕ) (h : p.num_marks = 1) :
    tickRatioAt p.num_marks i = 0 ∧ xPos p i = p.margin := by
  constructor
  · simp [tickRatioAt, h]
  · simp [xPos, tickRatioAt, h]

/-- Witness for C2 at the default parameters with `num_marks := 1`. -/
theorem single_mark_at_margin_witness :
    tickRatioAt ({ num_marks := 1 : GenParams }).num_marks 0 = 0 ∧
      xPos { num_marks := 1 : GenParams } 0 =
        ({ num_marks := 1 : GenParams }).margin :=
  single_mark_at_margin { num_marks := 1 } 0 rfl

/-- Claim C1: for mark count N > 1, tick 0's position equals `margin`
exactly (ratio `log 1 / log N = 0`) and tick N−1's position equals
`width - margin` exactly (ratio `log N / log N = 1`). -/
theorem endpoint_positions (p : GenParams) (h : 1 < p.num_marks) :
    xPos p 0 = p.margin ∧
      xPos p (p.num_marks - 1).toNat = p.width - p.margin := by
  have hne : p.num_marks ≠ 1 := by omega
  have hpos : (1 : ℝ) < (p.num_marks : ℝ) := by exact_mod_cast h
  have hL : 0 < Real.log (p.num_marks : ℝ) := Real.log_pos hpos
  constructor
  · simp [xPos, tickRatioAt, hne]
  · have h1 : ((p.num_marks - 1).toNat : ℝ) = (p.num_marks : ℝ) - 1 := by
      have h2 : ((p.num_marks - 1).toNat : ℤ) = p.num_marks - 1 :=
        Int.toNat_of_nonneg (by omega)
      exact_mod_cast h2
    have hcast : ((p.num_marks - 1).toNat : ℝ) + 1 = (p.num_marks : ℝ) := by
      rw [h1]; ring
    unfold xPos tickRatioAt
    rw [if_neg hne, hcast, div_self (ne_of_gt hL)]
    ring

/-- Witness for C1 at the default parameters with `num_marks := 2`. -/
theorem endpoint_positions_witness :
    (1 : ℤ) < ({ num_marks := 2 : GenParams }).num_marks ∧
      (xPos { num_marks := 2 : GenParams } 0 =
          ({ num_marks := 2 : GenParams }).margin ∧
        xPos { num_marks := 2 : GenParams }
            (({ num_marks := 2 : GenParams }).num_marks - 1).toNat =
          ({ num_marks := 2 : GenParams }).width -
            ({ num_marks := 2 : GenParams }).margin) :=
  ⟨by decide, endpoint_positions { num_marks := 2 } (by decide)⟩

/-- Claim C3: for any mark count ≥ 1 and index i in [0, count): an endpoint
(i = 0 or i = count − 1) gets the tall height and `mark_thickness + 0.5`
whatever its parity; a non-endpoint even index gets the medium height and
`mark_thickness`; a non-endpoint odd index gets the short height and
`mark_thickness`. -/
theorem mark_style_rule (p : GenParams) (i : ℕ)
    (hc : 1 ≤ p.num_marks) (hi : (i : ℤ) < p.num_marks) :
    ((i = 0 ∨ (i : ℤ) = p.num_marks - 1) →
        markStyle p i = (p.tall_height, p.mark_thickness + 0.5)) ∧
      (i ≠ 0 → (i : ℤ) ≠ p.num_marks - 1 → i % 2 = 0 →
        markStyle p i = (p.medium_height, p.mark_thickness)) ∧
      (i ≠ 0 → (i : ℤ) ≠ p.num_marks - 1 → i % 2 = 1 →
        markStyle p i = (p.short_height, p.mark_thickness)) := by
  refine ⟨fun hend => ?_, fun h0 hlast hev => ?_, fun h0 hlast hodd => ?_⟩
  · rw [markStyle, if_pos hend]
  · rw [markStyle, if_neg (by tauto), if_pos hev]
  · rw [markStyle, if_neg (by tauto), if_neg (by omega)]

/-- Witness for C3: with 5 marks, index 4 is an endpoint with even parity
and still gets the tall tier and the thicker stroke. -/
theorem mark_style_rule_witness :
    (1 : ℤ) ≤ ({ num_marks := 5 : GenParams }).num_marks ∧
      ((4 : ℕ) : ℤ) < ({ num_marks := 5 : GenParams }).num_marks ∧
      markStyle { num_marks := 5 : GenParams } 4 =
        (({ num_marks := 5 : GenParams }).tall_height,
          ({ num_marks := 5 : GenParams }).mark_thickness + 0.5) :=
  ⟨by decide, by decide,
    (mark_style_rule { num_marks := 5 } 4 (by decide) (by decide)).1
      (Or.inr (by decide))⟩

/-- Claim C4: for any mark count ≥ 1 with margin×2 < width, the tick
positions are monotonically non-decreasing in the index. -/
theorem tick_positions_monotone (p : GenParams)
    (hc : 1 ≤ p.num_marks) (hm : p.margin * 2 < p.width)
    (i j : ℕ) (hij : i ≤ j) (hj : (j : ℤ) < p.num_marks) :
    xPos p i ≤ xPos p j := by
  have hrw : (0 : ℝ) ≤ (p.width - p.margin) - p.margin := by linarith
  rcases eq_or_lt_of_le hc with h1 | h1
  · simp [xPos, tickRatioAt, h1.symm]
  · have hne : p.num_marks ≠ 1 := by omega
    have hL : 0 < Real.log (p.num_marks : ℝ) :=
      Real.log_pos (by exact_mod_cast h1)
    have hijr : (i : ℝ) ≤ (j : ℝ) := by exact_mod_cast hij
    have hlog : Real.log ((i : ℝ) + 1) ≤ Real.log ((j : ℝ) + 1) :=
      Real.log_le_log (by positivity) (by linarith)
    have hr : Real.log ((i : ℝ) + 1) / Real.log (p.num_marks : ℝ) ≤
        Real.log ((j : ℝ) + 1) / Real.log (p.num_marks : ℝ) :=
      (div_le_div_iff_of_pos_right hL).mpr hlog
    unfold xPos tickRatioAt
    simp only [if_neg hne]
    have := mul_le_mul_of_nonneg_left hr hrw
    linarith

/-- Witness for C4 at the default parameters with 3 marks, indices 1 ≤ 2. -/
theorem tick_positions_monotone_witness :
    (1 : ℤ) ≤ ({ num_marks := 3 : GenParams }).num_marks ∧
      ({ num_marks := 3 : GenParams }).margin * 2 <
        ({ num_marks := 3 : GenParams }).width ∧
      xPos { num_marks := 3 : GenParams } 1 ≤
        xPos { num_marks := 3 : GenParams } 2 :=
  ⟨by decide, by norm_num,
    tick_positions_monotone { num_marks := 3 } (by decide) (by norm_num)
      1 2 (by decide) (by decide)⟩

/-- Claim C5: for mark count > 2, the increments between consecutive tick
ratios `(log(i+2) - log(i+1))/log(count)` strictly decrease as i grows, so
marks are denser toward the high-index end. -/
theorem increments_strictly_decrease (p : GenParams)
    (hc : 2 < p.num_marks) (i : ℕ) (hi : (i : ℤ) + 2 < p.num_marks) :
    tickRatioAt p.num_marks (i + 2) - tickRatioAt p.num_marks (i + 1) <
      tickRatioAt p.num_marks (i + 1) - tickRatioAt p.num_marks i := by
  have hne : p.num_marks ≠ 1 := by omega
  have hL : 0 < Real.log (p.num_marks : ℝ) :=
    Real.log_pos (by exact_mod_cast (by omega : (1 : ℤ) < p.num_marks))
  have key : Real.log ((i : ℝ) + 3) + Real.log ((i : ℝ) + 1) <
      Real.log ((i : ℝ) + 2) + Real.log ((i : ℝ) + 2) := by
    have h1 : Real.log (((i : ℝ) + 3) * ((i : ℝ) + 1)) <
        Real.log (((i : ℝ) + 2) * ((i : ℝ) + 2)) :=
      Real.log_lt_log (by positivity) (by nlinarith)
    rwa [Real.log_mul (by positivity) (by positivity),
      Real.log_mul (by positivity) (by positivity)] at h1
  have e1 : ((i + 2 : ℕ) : ℝ) + 1 = (i : ℝ) + 3 := by push_cast; ring
  have e2 : ((i + 1 : ℕ) : ℝ) + 1 = (i : ℝ) + 2 := by push_cast; ring
  simp only [tickRatioAt, if_neg hne]
  rw [e1, e2, div_sub_div_same, div_sub_div_same]
  exact (div_lt_div_iff_of_pos_right hL).mpr (by linarith)

/-- Witness for C5 at the default parameters with 10 marks at i = 0: the
second ratio gap is smaller than the first. -/
theorem increments_strictly_decrease_witness :
    (2 : ℤ) < ({ num_marks := 10 : GenParams }).num_marks ∧
      ((0 : ℕ) : ℤ) + 2 < ({ num_marks := 10 : GenParams }).num_marks ∧
      tickRatioAt ({ num_marks := 10 : GenParams }).num_marks 2 -
          tickRatioAt ({ num_marks := 10 : GenParams }).num_marks 1 <
        tickRatioAt ({ num_marks := 10 : GenParams }).num_marks 1 -
          tickRatioAt ({ num_marks := 10 : GenParams }).num_marks 0 :=
  ⟨by decide, by decide,
    increments_strictly_decrease { num_marks := 10 } (by decide) 0 (by decide)⟩

theorem isElement_tickElem (p : GenParams) (i : ℕ) :
    isElement (tickElem p i) = true := rfl

theorem filter_markLines (p : GenParams) (l : List ℕ) :
    (l.flatMap (markLines p)).filter isElement = l.map (tickElem p) := by
  induction l with
  | nil => rfl
  | cons a t ih =>
      have hm : (markLines p a).filter isElement = [tickElem p a] := rfl
      rw [List.flatMap_cons, List.filter_append, hm, List.map_cons, ← ih,
        List.singleton_append]

/-- Counterexample to C6 as stated: with one mark the output is not
*exactly* the opening tag, the baseline element, the tick elements and the
closing tag — it also contains comment lines (and blank lines), and has 9
lines instead of the 4 such a reading would demand. -/
theorem output_contains_comment_lines :
    SvgLine.comment "Horizontal baseline" ∈
        generate_log_ruler_svg { num_marks := 1 } ∧
      (generate_log_ruler_svg { num_marks := 1 }).length = 9 := by
  constructor
  · simp [generate_log_ruler_svg]
  · rfl

/-- Claim C6 (amended): the SVG-element lines of the output, in order, are
exactly the opening svg tag carrying the 0,0,width,height view box data,
the baseline line element, one tick line element per mark
(`num_marks.toNat` of them), and the closing tag — so there is exactly one
root element, one baseline, and count tick elements; the remaining output
lines are only comments and blanks interspersed between the elements. -/
theorem output_element_structure (p : GenParams) :
    (generate_log_ruler_svg p).filter isElement =
      SvgLine.openTag p.width p.height :: baselineElem p ::
        ((List.range p.num_marks.toNat).map (tickElem p) ++
          [SvgLine.closeTag]) := by
  rw [generate_log_ruler_svg, List.filter_append, List.filter_append,
    filter_markLines]
  rfl

/-- The fixed parameter set the driver passes to `generate_log_ruler_svg`
(10 marks, 64×64 canvas, margin 5, baseline at y = 55, color #333,
baseline thickness 3, mark thickness 2, tiers 40/30/20). -/
def driverParams : GenParams :=
  { num_marks := 10, width := 64, height := 64, margin := 5,
    baseline_y := 55, color := "#333", baseline_thickness := 3,
    mark_thickness := 2, tall_height := 40, medium_height := 30,
    short_height := 20 }

/-- Claim C7: at the driver's parameters, tick 0 is at x = 5.0 with the
tall tier and thickness 2.5, tick 9 at x = 59.0 with the tall tier and
thickness 2.5, tick 1 at x = 5 + 54·log 2/log 10 with the short tier and
thickness 2, and the baseline line element runs from x = 5 to x = 59 at
y = 55 with thickness 3. -/
theorem driver_scenario :
    xPos driverParams 0 = 5 ∧
      markStyle driverParams 0 = (40, 2.5) ∧
      xPos driverParams 9 = 59 ∧
      markStyle driverParams 9 = (40, 2.5) ∧
      xPos driverParams 1 = 5 + 54 * (Real.log 2 / Real.log 10) ∧
      markStyle driverParams 1 = (20, 2) ∧
      baselineElem driverParams = SvgLine.lineElem 5 55 59 55 "#333" 3 ∧
      baselineElem driverParams ∈ generate_log_ruler_svg driverParams := by
  have hL : Real.log (10 : ℝ) ≠ 0 := ne_of_gt (Real.log_pos (by norm_num))
  refine ⟨?_, ?_, ?_, ?_, ?_, ?_, ?_, ?_⟩
  · simp [xPos, tickRatioAt, driverParams]
  · norm_num [markStyle, driverParams]
  · simp only [xPos, tickRatioAt, driverParams]
    norm_num [div_self hL]
  · norm_num [markStyle, driverParams]
  · simp only [xPos, tickRatioAt, driverParams]
    norm_num
  · norm_num [markStyle, driverParams]
  · norm_num [baselineElem, driverParams]
  · simp [generate_log_ruler_svg]

/-- The all-default parameter set (the Python function's default arguments). -/
def defaultParams : GenParams := {}

/-- Claim C8: every `<line>` element in the output is either the baseline —
spanning x = margin to x = width − margin at y = baseline_y with the
baseline thickness — or a tick element whose vertical span runs from
y = baseline_y down the page to y = baseline_y − (its selected tier height),
i.e. every tick rises upward from the baseline. -/
theorem line_elements_span (p : GenParams) (l : SvgLine)
    (hl : l ∈ generate_log_ruler_svg p) (he : isLineElem l = true) :
    l = SvgLine.lineElem p.margin p.baseline_y (p.width - p.margin)
        p.baseline_y p.color p.baseline_thickness ∨
      ∃ i, i < p.num_marks.toNat ∧
        l = SvgLine.lineElem (xPos p i) p.baseline_y (xPos p i)
          (p.baseline_y - (markStyle p i).1) p.color (markStyle p i).2 := by
  rw [generate_log_ruler_svg] at hl
  simp only [List.mem_append, List.mem_cons, List.mem_flatMap,
    List.mem_range, List.not_mem_nil, or_false] at hl
  rcases hl with ((h | h | h | h | h) | ⟨i, hi, hm⟩) | h
  · rw [h] at he; exact Bool.noConfusion he
  · rw [h] at he; exact Bool.noConfusion he
  · exact Or.inl (by rw [h, baselineElem])
  · rw [h] at he; exact Bool.noConfusion he
  · rw [h] at he; exact Bool.noConfusion he
  · simp only [markLines, List.mem_cons, List.not_mem_nil, or_false] at hm
    rcases hm with h | h | h
    · rw [h] at he; exact Bool.noConfusion he
    · exact Or.inr ⟨i, hi, by rw [h, tickElem]⟩
    · rw [h] at he; exact Bool.noConfusion he
  · rw [h] at he; exact Bool.noConfusion he

/-- Witness for C8: the baseline element of the default-parameter output is
one of the output's line elements and has the baseline anatomy. -/
theorem line_elements_span_witness :
    (baselineElem defaultParams ∈ generate_log_ruler_svg defaultParams ∧
        isLineElem (baselineElem defaultParams) = true) ∧
      (baselineElem defaultParams =
          SvgLine.lineElem defaultParams.margin defaultParams.baseline_y
            (defaultParams.width - defaultParams.margin)
            defaultParams.baseline_y defaultParams.color
            defaultParams.baseline_thickness ∨
        ∃ i, i < defaultParams.num_marks.toNat ∧
          baselineElem defaultParams =
            SvgLine.lineElem (xPos defaultParams i)
              defaultParams.baseline_y (xPos defaultParams i)
              (defaultParams.baseline_y - (markStyle defaultParams i).1)
              defaultParams.color (markStyle defaultParams i).2) :=
  ⟨⟨by simp [generate_log_ruler_svg], rfl⟩,
    line_elements_span defaultParams (baselineElem defaultParams)
      (by simp [generate_log_ruler_svg]) rfl⟩

/-- Claim C9: the generator is deterministic — two invocations with the same
parameter values produce identical line sequences (the embedding is a pure
function of its parameters; the Python body reads only its arguments and
locals, and the file write lives in the driver). -/
theorem generate_deterministic (p q : GenParams) (h : p = q) :
    generate_log_ruler_svg p = generate_log_ruler_svg q := by rw [h]

/-- Witness for C9 at the driver's parameters. -/
theorem generate_deterministic_witness :
    driverParams = driverParams ∧
      generate_log_ruler_svg driverParams =
        generate_log_ruler_svg driverParams :=
  ⟨rfl, generate_deterministic driverParams driverParams rfl⟩

/-- Claim C10: for any mark count ≤ 0 the loop body never runs (Python
`range` is empty), so the logarithm branch is never evaluated, and the
output is just the fixed frame: opening tag, comments, the baseline line
element, a blank line and the closing tag — with exactly one `<line>`
element (the baseline) and zero tick elements. -/
theorem nonpositive_count_output (p : GenParams) (h : p.num_marks ≤ 0) :
    generate_log_ruler_svg p =
      [SvgLine.openTag p.width p.height,
       SvgLine.comment "Horizontal baseline",
       baselineElem p,
       SvgLine.blank,
       SvgLine.comment "Log-spaced markings",
       SvgLine.closeTag] ∧
      ((generate_log_ruler_svg p).filter isLineElem).length = 1 := by
  have h0 : p.num_marks.toNat = 0 := by omega
  have hg : generate_log_ruler_svg p =
      [SvgLine.openTag p.width p.height,
       SvgLine.comment "Horizontal baseline",
       baselineElem p,
       SvgLine.blank,
       SvgLine.comment "Log-spaced markings",
       SvgLine.closeTag] := by
    rw [generate_log_ruler_svg, h0]
    rfl
  exact ⟨hg, by rw [hg]; rfl⟩

/-- Witness for C10 with a negative mark count. -/
theorem nonpositive_count_output_witness :
    ({ num_marks := -3 : GenParams }).num_marks ≤ 0 ∧
      (generate_log_ruler_svg { num_marks := -3 } =
        [SvgLine.openTag ({ num_marks := -3 : GenParams }).width
          ({ num_marks := -3 : GenParams }).height,
         SvgLine.comment "Horizontal baseline",
         baselineElem { num_marks := -3 },
         SvgLine.blank,
         SvgLine.comment "Log-spaced markings",
         SvgLine.closeTag] ∧
        ((generate_log_ruler_svg { num_marks := -3 }).filter
          isLineElem).length = 1) :=
  ⟨by decide, nonpositive_count_output { num_marks := -3 } (by decide)⟩
